import Mathlib

/-!
Shallow embedding of the route-planning and navigation-tracking core of the
repository (src/src/contexts/NavigationContext.tsx), with theorems settling
the spec claims about it.

Numbers: the TypeScript code computes over IEEE doubles; the embedding uses
exact rationals (ℚ).  All arithmetic the claims depend on (sums, divisions
by constant speeds, comparisons against constant thresholds) is exact, so ℚ
is a faithful model of the values the code manipulates.

Geometry: the code obtains `calculateDistance` from the LocationContext
collaborator (a haversine over doubles).  Its trigonometry is not exactly
representable, so every definition is parametrised over a distance function
`Dist`; the claims under study hold for (or fail at) arbitrary distance
functions, and concrete witnesses instantiate `Dist` with a simple exact
metric.

State: the provider keeps one `NavigationState` React useState value.  Every
operation is embedded as a pure function from the state snapshot it closes
over to the state left after its queued functional updates run; operations
that can `throw` return `Except String`.
-/

namespace NavCore

/-- `Coordinates` of NavigationContext.tsx: `{latitude, longitude}`. -/
structure Coordinates where
  latitude : ℚ
  longitude : ℚ
deriving DecidableEq, Repr

/-- The slice of the `Memory` record (MemoryContext.tsx) that the navigation
code reads: `id` (sort identity in the spec claim), `importance`
(1–10 scale) and `location`.  The remaining fields (userId, title,
description, date, address, tags, photos, isPrivate, createdAt, updatedAt)
are payload the navigation code never touches and are omitted. -/
structure Memory where
  id : String
  importance : ℚ
  location : Coordinates
deriving DecidableEq, Repr

/-- `RouteStep` of NavigationContext.tsx. -/
structure RouteStep where
  distance : ℚ
  duration : ℚ
  startLocation : Coordinates
  endLocation : Coordinates
  instruction : String
  maneuver : Option String
deriving DecidableEq, Repr

/-- `RouteLeg` of NavigationContext.tsx. -/
structure RouteLeg where
  distance : ℚ
  duration : ℚ
  startLocation : Coordinates
  endLocation : Coordinates
  steps : List RouteStep
deriving DecidableEq, Repr

/-- `MemoryWaypoint` of NavigationContext.tsx. -/
structure MemoryWaypoint where
  memory : Memory
  distanceFromRoute : ℚ
  detourTime : ℚ
  waypointIndex : ℕ
deriving DecidableEq, Repr

/-- `Route` of NavigationContext.tsx. -/
structure Route where
  distance : ℚ
  duration : ℚ
  legs : List RouteLeg
  memoryWaypoints : List MemoryWaypoint
deriving DecidableEq, Repr

/-- `NavigationState` of NavigationContext.tsx.  Times (`navigationStartTime`,
`estimatedArrivalTime`) are Date values, modelled as milliseconds since the
epoch. -/
structure NavigationState where
  origin : Option Coordinates
  destination : Option Coordinates
  currentRoute : Option Route
  alternativeRoutes : List Route
  activeNavigation : Bool
  currentStepIndex : ℕ
  upcomingMemory : Option Memory
  distanceToNextMemory : Option ℚ
  navigationStartTime : Option ℚ
  estimatedArrivalTime : Option ℚ
  travelledDistance : ℚ
deriving DecidableEq, Repr

/-- `defaultNavigationState` of NavigationContext.tsx. -/
def defaultNavigationState : NavigationState :=
  { origin := none
    destination := none
    currentRoute := none
    alternativeRoutes := []
    activeNavigation := false
    currentStepIndex := 0
    upcomingMemory := none
    distanceToNextMemory := none
    navigationStartTime := none
    estimatedArrivalTime := none
    travelledDistance := 0 }

/-- The type of the `calculateDistance` collaborator the provider pulls from
LocationContext (a haversine in the source): every definition is
parametrised over it. -/
abbrev Dist : Type := Coordinates → Coordinates → ℚ

/-- `mode.toLowerCase()`, as the character-wise lowercase map (the mode
strings at play are ASCII). -/
def toLowerStr (s : String) : String := String.mk (s.data.map Char.toLower)

/-- `getBaseSpeedForMode` of NavigationContext.tsx: `mode.toLowerCase()`
switched over the four known modes, metres per second, defaulting to the
driving speed (the source lists the `driving` case and `default` together). -/
def getBaseSpeedForMode (mode : String) : ℚ :=
  match toLowerStr mode with
  | "walking" => 14/10
  | "bicycling" => 42/10
  | "transit" => 83/10
  | _ => 139/10

/-- The `averageSpeed = 50` (km/h) constant that `findPotentialMemoryWaypoints`
uses to estimate detour time. -/
def averageSpeed : ℚ := 50

/-- `findPotentialMemoryWaypoints` of NavigationContext.tsx: a `forEach` with
index over the memories that pushes a waypoint exactly when the estimated
detour time is within budget, embedded as `filterMap` over the enumerated
list. -/
def findPotentialMemoryWaypoints (dist : Dist) (origin destination : Coordinates)
    (memories : List Memory) (maxDetourMinutes : ℚ) : List MemoryWaypoint :=
  let directDistance := dist origin destination
  memories.enum.filterMap fun p =>
    let index := p.1
    let memory := p.2
    let memoryCoord := memory.location
    let distanceFromOrigin := dist origin memoryCoord
    let distanceFromDestination := dist memoryCoord destination
    let totalDistanceViaMemory := distanceFromOrigin + distanceFromDestination
    let extraDistance := totalDistanceViaMemory - directDistance
    let detourTimeMinutes := (extraDistance / 1000) / (averageSpeed / 60)
    if detourTimeMinutes ≤ maxDetourMinutes then
      some { memory := memory
             distanceFromRoute := extraDistance
             detourTime := detourTimeMinutes
             waypointIndex := index }
    else
      none

/-- The combined score of `sortWaypointsByPriority`:
`importance * 10 - detourTime * 5`. -/
def scoreOf (w : MemoryWaypoint) : ℚ := w.memory.importance * 10 - w.detourTime * 5

/-- The ordering realised by the comparator `scoreB - scoreA` (higher score
first). -/
def scoreGe (a b : MemoryWaypoint) : Prop := scoreOf b ≤ scoreOf a

instance : DecidableRel scoreGe :=
  fun a b => inferInstanceAs (Decidable (scoreOf b ≤ scoreOf a))

instance : IsTotal MemoryWaypoint scoreGe := ⟨fun _ _ => le_total _ _⟩

instance : IsTrans MemoryWaypoint scoreGe := ⟨fun _ _ _ hab hbc => le_trans hbc hab⟩

/-- `sortWaypointsByPriority` of NavigationContext.tsx:
`[...waypoints].sort((a, b) => scoreB - scoreA)`.  ECMA-262 requires
`Array.prototype.sort` to be stable, and with a consistent comparator the
stable descending-by-score result is unique; `List.insertionSort` with
`scoreGe` computes exactly that list (it is sorted for `scoreGe` and keeps
equal-score elements in input order). -/
def sortWaypointsByPriority (waypoints : List MemoryWaypoint) : List MemoryWaypoint :=
  List.insertionSort scoreGe waypoints

/-- The coordinate the navigation code rebuilds from a waypoint:
`{latitude: w.memory.location.latitude, longitude: w.memory.location.longitude}`. -/
def coordOf (w : MemoryWaypoint) : Coordinates :=
  ⟨w.memory.location.latitude, w.memory.location.longitude⟩

/-- The scan of `orderWaypointsByGreedyPath`: running index `i`, best index
`bi` and best distance `bd` so far, updated on strict improvement only
(`if (distance < closestDistance)`). -/
def argminAux {α : Type} (f : α → ℚ) : List α → ℕ → ℕ → ℚ → ℕ
  | [], _, bi, _ => bi
  | x :: xs, i, bi, bd =>
    if f x < bd then argminAux f xs (i + 1) i (f x)
    else argminAux f xs (i + 1) bi bd

/-- Index of the closest unvisited waypoint in `orderWaypointsByGreedyPath`:
the loop starts from `closestDistance = Infinity`, so the first element
always becomes the initial best. -/
def argminIdx {α : Type} (f : α → ℚ) : List α → ℕ
  | [] => 0
  | x :: xs => argminAux f xs 1 0 (f x)

/-- The `while (unvisited.length > 0)` loop of `orderWaypointsByGreedyPath`:
repeatedly splice out the closest unvisited waypoint and walk to it.  Each
iteration removes exactly one element, so the loop runs `unvisited.length`
times; `fuel` is instantiated with that count at the call site (the `0`
fuel branch is unreachable there). -/
def greedyGo (dist : Dist) : ℕ → Coordinates → List MemoryWaypoint → List MemoryWaypoint
  | 0, _, _ => []
  | _ + 1, _, [] => []
  | fuel + 1, current, w :: ws =>
    let l := w :: ws
    let k := argminIdx (fun x => dist current (coordOf x)) l
    let next := l.getD k w
    next :: greedyGo dist fuel (coordOf next) (l.eraseIdx k)

/-- The `result.map((waypoint, index) => ({...waypoint, waypointIndex: index}))`
reindexing at the end of `orderWaypointsByGreedyPath`. -/
def assignIdx : ℕ → List MemoryWaypoint → List MemoryWaypoint
  | _, [] => []
  | i, w :: ws => { w with waypointIndex := i } :: assignIdx (i + 1) ws

/-- `orderWaypointsByGreedyPath` of NavigationContext.tsx.  The `en`
parameter is the source's `end` argument, which its body never uses.
Lists of length ≤ 1 are returned as-is, without reindexing. -/
def orderWaypointsByGreedyPath (dist : Dist) (start en : Coordinates)
    (waypoints : List MemoryWaypoint) : List MemoryWaypoint :=
  if waypoints.length ≤ 1 then waypoints
  else assignIdx 0 (greedyGo dist waypoints.length start waypoints)

/-- `createSimulatedSteps` of NavigationContext.tsx: one straight-line step;
`Math.round` is `round` (floor of x + 1/2, identical on the values here). -/
def createSimulatedSteps (start en : Coordinates) (distance duration : ℚ) : List RouteStep :=
  [{ distance := distance
     duration := duration
     startLocation := start
     endLocation := en
     instruction := "Travel " ++ toString (round distance) ++ " meters to the next point"
     maneuver := none }]

/-- The leg-building loop of `generateRouteWithWaypoints`: walking `prevPoint`
through the ordered waypoints while accumulating the legs, the total
distance and the total duration.  Returns
(legs, totalDistance, totalDuration, final prevPoint). -/
def buildLegs (dist : Dist) (baseSpeed : ℚ) :
    Coordinates → List MemoryWaypoint → List RouteLeg × ℚ × ℚ × Coordinates
  | prevPoint, [] => ([], 0, 0, prevPoint)
  | prevPoint, w :: ws =>
    let waypointCoord := coordOf w
    let legDistance := dist prevPoint waypointCoord
    let legDuration := legDistance / baseSpeed
    let steps := createSimulatedSteps prevPoint waypointCoord legDistance legDuration
    let rest := buildLegs dist baseSpeed waypointCoord ws
    ({ distance := legDistance
       duration := legDuration
       startLocation := prevPoint
       endLocation := waypointCoord
       steps := steps } :: rest.1,
     legDistance + rest.2.1, legDuration + rest.2.2.1, rest.2.2.2)

/-- `generateRouteWithWaypoints` of NavigationContext.tsx: the direct route
when no waypoints are selected, otherwise greedy ordering followed by one
leg per consecutive pair plus the final leg to the destination. -/
def generateRouteWithWaypoints (dist : Dist) (origin destination : Coordinates)
    (waypoints : List MemoryWaypoint) (transportMode : String) : Route :=
  let directDistance := dist origin destination
  let baseSpeed := getBaseSpeedForMode transportMode
  let directDuration := directDistance / baseSpeed
  if waypoints.isEmpty then
    { distance := directDistance
      duration := directDuration
      legs := [{ distance := directDistance
                 duration := directDuration
                 startLocation := origin
                 endLocation := destination
                 steps := [{ distance := directDistance
                             duration := directDuration
                             startLocation := origin
                             endLocation := destination
                             instruction := "Head to destination"
                             maneuver := none }] }]
      memoryWaypoints := [] }
  else
    let orderedWaypoints := orderWaypointsByGreedyPath dist origin destination waypoints
    let built := buildLegs dist baseSpeed origin orderedWaypoints
    let finalLegDistance := dist built.2.2.2 destination
    let finalLegDuration := finalLegDistance / baseSpeed
    let finalSteps := createSimulatedSteps built.2.2.2 destination finalLegDistance finalLegDuration
    { distance := built.2.1 + finalLegDistance
      duration := built.2.2.1 + finalLegDuration
      legs := built.1 ++ [{ distance := finalLegDistance
                            duration := finalLegDuration
                            startLocation := built.2.2.2
                            endLocation := destination
                            steps := finalSteps }]
      memoryWaypoints := orderedWaypoints }

/-- `generateAlternativeRoutes` of NavigationContext.tsx.  The source draws the
waypoint subset of each alternative with `Math.random()`
(`shuffleAndSelectWaypoints`); the random draws are modelled as an explicit
oracle `shuffle i available` giving the subset picked in iteration `i`. -/
def generateAlternativeRoutes (dist : Dist) (origin destination : Coordinates)
    (availableWaypoints : List MemoryWaypoint) (transportMode : String)
    (numAlternatives : ℕ)
    (shuffle : ℕ → List MemoryWaypoint → List MemoryWaypoint) : List Route :=
  if availableWaypoints.length ≤ 1 then []
  else (List.range numAlternatives).map fun i =>
    generateRouteWithWaypoints dist origin destination (shuffle i availableWaypoints) transportMode

/-- The leg-locating loop of `findUpcomingMemory`: accumulate step counts and
break with the current leg index once `currentStepIndex < stepCount`; if the
loop finishes without breaking, `currentLegIndex` keeps its initial `0`. -/
def legIndexOfStep : List RouteLeg → ℕ → ℕ → ℕ → ℕ
  | [], _, _, _ => 0
  | leg :: rest, i, stepCount, target =>
    let sc := stepCount + leg.steps.length
    if target < sc then i else legIndexOfStep rest (i + 1) sc target

/-- `findUpcomingMemory` of NavigationContext.tsx: first memory waypoint whose
`waypointIndex` is at or past the current leg. -/
def findUpcomingMemory (route : Route) (currentStepIndex : ℕ) : Option Memory :=
  if route.memoryWaypoints.isEmpty then none
  else
    let currentLegIndex := legIndexOfStep route.legs 0 0 currentStepIndex
    (route.memoryWaypoints.find? fun w => currentLegIndex ≤ w.waypointIndex).map
      fun w => w.memory

/-- The leg/step-locating double loop of `findCurrentStep`.  The inner `if`
fires when the flattened position equals the target, breaking both loops
with `(i, j)`.  The outer `break` also fires whenever the running step count
equals the target at a leg boundary, leaving `currentLegIndex` and
`legStepIndex` at their initial `(0, 0)`; the same `(0, 0)` results when the
loops finish without a break (target past the last step). -/
def findStepPos : List RouteLeg → ℕ → ℕ → ℕ → ℕ × ℕ
  | [], _, _, _ => (0, 0)
  | leg :: rest, i, stepCount, target =>
    if stepCount ≤ target ∧ target < stepCount + leg.steps.length then
      (i, target - stepCount)
    else if stepCount + leg.steps.length = target then (0, 0)
    else findStepPos rest (i + 1) (stepCount + leg.steps.length) target

/-- Stand-in for the `undefined` a JS out-of-range index would yield; any
subsequent field access on it is a TypeError in the source, and no theorem
below evaluates such a state. -/
def defaultStep : RouteStep :=
  { distance := 0, duration := 0, startLocation := ⟨0, 0⟩, endLocation := ⟨0, 0⟩
    instruction := "", maneuver := none }

/-- Out-of-range stand-in for legs, as for `defaultStep`. -/
def defaultLeg : RouteLeg :=
  { distance := 0, duration := 0, startLocation := ⟨0, 0⟩, endLocation := ⟨0, 0⟩
    steps := [] }

/-- Out-of-range stand-in for routes, as for `defaultStep`. -/
def defaultRoute : Route :=
  { distance := 0, duration := 0, legs := [], memoryWaypoints := [] }

/-- `findCurrentStep` of NavigationContext.tsx: within 20 m of the current
step's end, advance by one and report that remaining distance as travelled;
otherwise stay and report 10 % of the step's length. -/
def findCurrentStep (dist : Dist) (route : Route) (currentStepIndex : ℕ)
    (currentLocation : Coordinates) : ℕ × ℚ :=
  let pos := findStepPos route.legs 0 0 currentStepIndex
  let currentLeg := route.legs.getD pos.1 defaultLeg
  let currentStep := currentLeg.steps.getD pos.2 defaultStep
  let distanceToStepEnd := dist currentLocation currentStep.endLocation
  if distanceToStepEnd < 20 then
    (currentStepIndex + 1, distanceToStepEnd)
  else
    (currentStepIndex, currentStep.distance * (1/10))

/-- `totalSteps` as computed inside `navigateToNextStep`:
`legs.reduce((total, leg) => total + leg.steps.length, 0)`. -/
def totalSteps (route : Route) : ℕ :=
  route.legs.foldl (fun total leg => total + leg.steps.length) 0

/-- `stopNavigation` of NavigationContext.tsx: unconditionally resets the
progress fields (no state guard, no throw). -/
def stopNavigation (s : NavigationState) : NavigationState :=
  { s with activeNavigation := false
           currentStepIndex := 0
           navigationStartTime := none
           estimatedArrivalTime := none
           upcomingMemory := none
           distanceToNextMemory := none
           travelledDistance := 0 }

/-- `navigateToNextStep` of NavigationContext.tsx: silently returns unless
navigation is active with a route; stops navigation when the incremented
index reaches the total step count. -/
def navigateToNextStep (s : NavigationState) : NavigationState :=
  match s.activeNavigation, s.currentRoute with
  | true, some route =>
    let newStepIndex := s.currentStepIndex + 1
    if totalSteps route ≤ newStepIndex then stopNavigation s
    else
      { s with currentStepIndex := newStepIndex
               upcomingMemory := findUpcomingMemory route newStepIndex }
  | _, _ => s

/-- `updateCurrentLocation` of NavigationContext.tsx: silently returns unless
navigation is active with a route, otherwise advances per `findCurrentStep`
and accumulates travelled distance.  The source next calls
`findUpcomingMemory` (a `Memory | null`) but then reads the nonexistent
`.memory` property of the result, so the stored `upcomingMemory`
(`upcomingMemory?.memory || null`) and the guarded `distanceToNextMemory`
both collapse to null on every call. -/
def updateCurrentLocation (dist : Dist) (s : NavigationState)
    (location : Coordinates) : NavigationState :=
  match s.activeNavigation, s.currentRoute with
  | true, some route =>
    let fc := findCurrentStep dist route s.currentStepIndex location
    { s with currentStepIndex := fc.1
             upcomingMemory := none
             distanceToNextMemory := none
             travelledDistance := s.travelledDistance + fc.2 }
  | _, _ => s

/-- The functional state update `startNavigation` queues once its route
selection succeeded: `eta = now + duration * 1000` in Date milliseconds. -/
def startNavUpdate (now : ℚ) (selectedRoute : Route) (s : NavigationState) : NavigationState :=
  { s with currentRoute := some selectedRoute
           activeNavigation := true
           currentStepIndex := 0
           navigationStartTime := some now
           estimatedArrivalTime := some (now + selectedRoute.duration * 1000)
           travelledDistance := 0
           upcomingMemory := findUpcomingMemory selectedRoute 0 }

/-- `startNavigation` of NavigationContext.tsx:
`[currentRoute, ...alternativeRoutes].filter(Boolean)` indexed by
`routeIndex`, throwing on an out-of-range index. -/
def startNavigation (now : ℚ) (s : NavigationState) (routeIndex : ℕ) :
    Except String NavigationState :=
  let routes := s.currentRoute.toList ++ s.alternativeRoutes
  if routes.length ≤ routeIndex then Except.error ("Invalid route index")
  else Except.ok (startNavUpdate now (routes.getD routeIndex defaultRoute) s)

/-- `calculateRoutes` of NavigationContext.tsx: requires both endpoints, then
filter → sort → take-`maxMemories` → assemble the primary route, plus two
random alternatives; returns the routes and queues the state update that
stores them. -/
def calculateRoutes (dist : Dist) (memories : List Memory)
    (shuffle : ℕ → List MemoryWaypoint → List MemoryWaypoint)
    (transportMode : String) (maxDetourMinutes : ℚ) (maxMemories : ℕ)
    (s : NavigationState) : Except String (List Route × NavigationState) :=
  match s.origin, s.destination with
  | some origin, some destination =>
    let potentialWaypoints := findPotentialMemoryWaypoints dist origin destination memories maxDetourMinutes
    let sortedWaypoints := sortWaypointsByPriority potentialWaypoints
    let selectedWaypoints := sortedWaypoints.take maxMemories
    let primaryRoute := generateRouteWithWaypoints dist origin destination selectedWaypoints transportMode
    let alternativeRoutes := generateAlternativeRoutes dist origin destination sortedWaypoints transportMode 2 shuffle
    Except.ok (primaryRoute :: alternativeRoutes,
      { s with currentRoute := some primaryRoute, alternativeRoutes := alternativeRoutes })
  | _, _ => Except.error ("Origin and destination must be set before calculating routes")

/-- `recalculateRoute` of NavigationContext.tsx.  The guard silently returns
unless navigation is active with a route and both endpoints.  The
`currentLocation` the source then builds from
`navigator.geolocation.getCurrentPosition(...)` holds `undefined` in both
fields and is never used: `calculateRoutes` reads the *stored* origin.
`maxDetourMinutes` and `transportMode` are the resolved user preferences
(`|| 10`, `|| 'driving'`), passed here as parameters.  The final
`startNavigation(0)` executes in the same render closure, so it selects
from the snapshot `s` while its update applies to the state already updated
by `calculateRoutes` (React functional updates); any throw is caught and
re-thrown as a recalculation failure. -/
def recalculateRoute (dist : Dist)
    (shuffle : ℕ → List MemoryWaypoint → List MemoryWaypoint)
    (memories : List Memory) (maxDetourMinutes : ℚ) (transportMode : String)
    (now : ℚ) (s : NavigationState) : Except String NavigationState :=
  match s.activeNavigation, s.currentRoute, s.origin, s.destination with
  | true, some _, some _, some _ =>
    match calculateRoutes dist memories shuffle transportMode maxDetourMinutes 5 s with
    | Except.error _ => Except.error ("Failed to recalculate route")
    | Except.ok res =>
      let routesSnapshot := s.currentRoute.toList ++ s.alternativeRoutes
      if routesSnapshot.length ≤ 0 then Except.error ("Failed to recalculate route")
      else Except.ok (startNavUpdate now (routesSnapshot.getD 0 defaultRoute) res.2)
  | _, _, _, _ => Except.ok s

/-! Auxiliary definitions for the verification (not from the source). -/

/-- A waypoint with its sequence index erased, for comparing the sequencer's
output with its input up to reindexing. -/
def stripIdx (w : MemoryWaypoint) : MemoryWaypoint := { w with waypointIndex := 0 }

/-- Modelled from the spec: the detour-time formula §4.3 prescribes for the
selector, `detourTime = detourDistance / speed(mode) / 60` (minutes).
Stated only to compare against the computation the source actually
performs. -/
def specDetourTime (mode : String) (detourDistance : ℚ) : ℚ :=
  detourDistance / getBaseSpeedForMode mode / 60

/-! Concrete instances used by witnesses and counterexamples. -/

/-- Concrete distance instance for evaluating witnesses: an exact taxicab
metric standing in for the haversine collaborator (the universally
quantified theorems hold for every `Dist`; evaluation needs a computable
one). -/
def demoDist (a b : Coordinates) : ℚ :=
  |a.latitude - b.latitude| + |a.longitude - b.longitude|

/-- A memory 50 off the axis between the demo origin ⟨0,0⟩ and destination
⟨100,0⟩: taxicab detour distance 100, detour time (100/1000)/(50/60) = 3/25
minutes. -/
def demoMem1 : Memory := { id := "m1", importance := 5, location := ⟨50, 50⟩ }

/-- The waypoint the filter emits for `demoMem1`. -/
def demoW1 : MemoryWaypoint :=
  { memory := demoMem1, distanceFromRoute := 100, detourTime := 3/25, waypointIndex := 0 }

/-- A memory giving taxicab detour distance 1000 between ⟨0,0⟩ and ⟨1000,0⟩,
for the detour-formula counterexample. -/
def cexMem5 : Memory := { id := "m5", importance := 5, location := ⟨500, 500⟩ }

/-- Equal-score waypoints with ids b, a, c, in that input order, for the
tie-break counterexample (each scores 1·10 − 2·5 = 0). -/
def cexWb : MemoryWaypoint :=
  { memory := { id := "b", importance := 1, location := ⟨0, 0⟩ }
    distanceFromRoute := 0, detourTime := 2, waypointIndex := 0 }

/-- See `cexWb`. -/
def cexWa : MemoryWaypoint :=
  { memory := { id := "a", importance := 1, location := ⟨0, 0⟩ }
    distanceFromRoute := 0, detourTime := 2, waypointIndex := 1 }

/-- See `cexWb`. -/
def cexWc : MemoryWaypoint :=
  { memory := { id := "c", importance := 1, location := ⟨0, 0⟩ }
    distanceFromRoute := 0, detourTime := 2, waypointIndex := 2 }

/-- Two waypoints for exercising the sequencer on a list of length 2. -/
def demoWa : MemoryWaypoint :=
  { memory := { id := "wa", importance := 1, location := ⟨0, 10⟩ }
    distanceFromRoute := 0, detourTime := 0, waypointIndex := 7 }

/-- See `demoWa`. -/
def demoWb : MemoryWaypoint :=
  { memory := { id := "wb", importance := 1, location := ⟨0, 20⟩ }
    distanceFromRoute := 0, detourTime := 0, waypointIndex := 9 }

/-- A single selected waypoint carrying its original memory-list index 1, for
the sequencer's length-1 early return. -/
def cexSingleton : MemoryWaypoint :=
  { memory := { id := "s", importance := 1, location := ⟨5, 5⟩ }
    distanceFromRoute := 0, detourTime := 0, waypointIndex := 1 }

/-- A route of one leg with one step from ⟨0,0⟩ to ⟨100,0⟩. -/
def demoRoute1 : Route :=
  { distance := 100
    duration := 10
    legs := [{ distance := 100, duration := 10, startLocation := ⟨0, 0⟩
               endLocation := ⟨100, 0⟩
               steps := [{ distance := 100, duration := 10, startLocation := ⟨0, 0⟩
                           endLocation := ⟨100, 0⟩, instruction := "", maneuver := none }] }]
    memoryWaypoints := [] }

/-- An active session navigating `demoRoute1`, positioned on its single (and
hence final) step. -/
def demoActive : NavigationState :=
  { origin := some ⟨0, 0⟩
    destination := some ⟨100, 0⟩
    currentRoute := some demoRoute1
    alternativeRoutes := []
    activeNavigation := true
    currentStepIndex := 0
    upcomingMemory := none
    distanceToNextMemory := none
    navigationStartTime := some 0
    estimatedArrivalTime := some 10000
    travelledDistance := 0 }

/-- `demoActive` after having accumulated 100 of travelled distance. -/
def demoActive100 : NavigationState := { demoActive with travelledDistance := 100 }

end NavCore

namespace NavCore

/-- Every waypoint the candidate filter emits passed the budget test, and its
stored detour time is its stored extra distance through the fixed 50 km/h
conversion. -/
theorem mem_findPotential {dist : Dist} {o d : Coordinates} {mems : List Memory}
    {maxD : ℚ} {w : MemoryWaypoint}
    (h : w ∈ findPotentialMemoryWaypoints dist o d mems maxD) :
    w.detourTime ≤ maxD ∧
      w.detourTime = (w.distanceFromRoute / 1000) / (averageSpeed / 60) := by
  simp only [findPotentialMemoryWaypoints, List.mem_filterMap] at h
  obtain ⟨p, hp, hf⟩ := h
  split at hf
  · cases hf
    exact ⟨by assumption, rfl⟩
  · cases hf

/-- The index scan of the greedy loop stays below the running bound. -/
theorem argminAux_lt {α : Type} (f : α → ℚ) :
    ∀ (xs : List α) (i bi : ℕ) (bd : ℚ), bi < i → argminAux f xs i bi bd < i + xs.length
  | [], _, _, _, h => by simpa [argminAux] using h
  | x :: xs, i, bi, bd, h => by
    rw [argminAux]
    split
    · have h2 := argminAux_lt f xs (i + 1) i (f x) (Nat.lt_succ_self i)
      simp only [List.length_cons]
      omega
    · have h2 := argminAux_lt f xs (i + 1) bi bd (Nat.lt_succ_of_lt h)
      simp only [List.length_cons]
      omega

/-- The chosen closest-waypoint index is in range. -/
theorem argminIdx_lt {α : Type} (f : α → ℚ) (x : α) (xs : List α) :
    argminIdx f (x :: xs) < (x :: xs).length := by
  rw [argminIdx]
  have h2 := argminAux_lt f xs 1 0 (f x) Nat.one_pos
  simp only [List.length_cons]
  omega

/-- Splicing the `k`-th element to the front is a permutation. -/
theorem getD_cons_eraseIdx_perm {α : Type} :
    ∀ (l : List α) (k : ℕ) (d : α), k < l.length → (l.getD k d :: l.eraseIdx k).Perm l
  | [], _, _, h => by simp at h
  | x :: xs, 0, d, _ => by
    simp only [List.getD_cons_zero, List.eraseIdx_cons_zero]
    exact List.Perm.refl _
  | x :: xs, k + 1, d, h => by
    simp only [List.getD_cons_succ, List.eraseIdx_cons_succ]
    exact (List.Perm.swap x (xs.getD k d) (xs.eraseIdx k)).trans
      ((getD_cons_eraseIdx_perm xs k d (by simpa using h)).cons x)

/-- With enough fuel (one unit per removed waypoint) the greedy loop returns a
permutation of its input. -/
theorem greedyGo_perm (dist : Dist) :
    ∀ (fuel : ℕ) (c : Coordinates) (l : List MemoryWaypoint),
      l.length ≤ fuel → (greedyGo dist fuel c l).Perm l := by
  intro fuel
  induction fuel with
  | zero =>
    intro c l h
    rw [Nat.le_zero, List.length_eq_zero] at h
    subst h
    exact List.Perm.refl _
  | succ fuel ih =>
    intro c l h
    match l with
    | [] => exact List.Perm.refl _
    | w :: ws =>
      rw [greedyGo]
      have hk := argminIdx_lt (fun x => dist c (coordOf x)) w ws
      have hlen : ((w :: ws).eraseIdx (argminIdx (fun x => dist c (coordOf x)) (w :: ws))).length ≤ fuel := by
        rw [List.length_eraseIdx_of_lt hk]
        simp only [List.length_cons] at h ⊢
        omega
      exact (List.Perm.cons _ (ih _ _ hlen)).trans
        (getD_cons_eraseIdx_perm (w :: ws) _ w hk)

theorem assignIdx_length : ∀ (i : ℕ) (l : List MemoryWaypoint),
    (assignIdx i l).length = l.length
  | _, [] => rfl
  | i, _ :: ws => by simp [assignIdx, assignIdx_length (i + 1) ws]

theorem map_waypointIndex_assignIdx : ∀ (i : ℕ) (l : List MemoryWaypoint),
    (assignIdx i l).map (fun w => w.waypointIndex) = List.range' i l.length
  | _, [] => rfl
  | i, _ :: ws => by
    simp [assignIdx, List.range'_succ, map_waypointIndex_assignIdx (i + 1) ws]

theorem map_stripIdx_assignIdx : ∀ (i : ℕ) (l : List MemoryWaypoint),
    (assignIdx i l).map stripIdx = l.map stripIdx
  | _, [] => rfl
  | i, w :: ws => by simp [assignIdx, stripIdx, map_stripIdx_assignIdx (i + 1) ws]

/-- Reindexing preserves each waypoint's detour time. -/
theorem mem_assignIdx_detour {w : MemoryWaypoint} :
    ∀ {i : ℕ} {l : List MemoryWaypoint}, w ∈ assignIdx i l →
      ∃ w' ∈ l, w.detourTime = w'.detourTime := by
  intro i l
  induction l generalizing i with
  | nil => intro h; simp [assignIdx] at h
  | cons x xs ih =>
    intro h
    rw [assignIdx, List.mem_cons] at h
    rcases h with h | h
    · exact ⟨x, List.mem_cons_self x xs, by rw [h]⟩
    · obtain ⟨w', hw', he⟩ := ih h
      exact ⟨w', List.mem_cons_of_mem x hw', he⟩

/-- Every waypoint the sequencer outputs has the detour time of some input
waypoint. -/
theorem mem_orderWaypoints_detour {dist : Dist} {start en : Coordinates}
    {l : List MemoryWaypoint} {w : MemoryWaypoint}
    (h : w ∈ orderWaypointsByGreedyPath dist start en l) :
    ∃ w' ∈ l, w.detourTime = w'.detourTime := by
  rw [orderWaypointsByGreedyPath] at h
  split at h
  · exact ⟨w, h, rfl⟩
  · obtain ⟨w', hw', he⟩ := mem_assignIdx_detour h
    exact ⟨w', (greedyGo_perm dist l.length start l le_rfl).mem_iff.mp hw', he⟩

/-- Every waypoint placed on an assembled route has the detour time of some
waypoint of the selected list handed to the assembler. -/
theorem mem_generateRoute_detour {dist : Dist} {o d : Coordinates}
    {wps : List MemoryWaypoint} {mode : String} {w : MemoryWaypoint}
    (h : w ∈ (generateRouteWithWaypoints dist o d wps mode).memoryWaypoints) :
    ∃ w' ∈ wps, w.detourTime = w'.detourTime := by
  simp only [generateRouteWithWaypoints] at h
  split at h
  · simp at h
  · exact @mem_orderWaypoints_detour dist o d wps w h

/-- Claim C4: no waypoint returned by the selector, and none placed on the
computed primary route (filter → sort → take → assemble, the chain of
`calculateRoutes`), has a detour time strictly greater than
`maxDetourMinutes`. -/
theorem claim_C4_detour_budget (dist : Dist) (o d : Coordinates) (mems : List Memory)
    (maxD : ℚ) (mode : String) (maxMem : ℕ) (w : MemoryWaypoint) :
    (w ∈ findPotentialMemoryWaypoints dist o d mems maxD → w.detourTime ≤ maxD) ∧
      (w ∈ (generateRouteWithWaypoints dist o d
            ((sortWaypointsByPriority (findPotentialMemoryWaypoints dist o d mems maxD)).take maxMem)
            mode).memoryWaypoints →
        w.detourTime ≤ maxD) := by
  constructor
  · exact fun h => (mem_findPotential h).1
  · intro h
    obtain ⟨w', hw', he⟩ := mem_generateRoute_detour h
    have hw'' : w' ∈ sortWaypointsByPriority (findPotentialMemoryWaypoints dist o d mems maxD) :=
      List.take_subset maxMem _ hw'
    rw [sortWaypointsByPriority, List.mem_insertionSort] at hw''
    rw [he]
    exact (mem_findPotential hw'').1

/-- Claim C5 (amended): the selector's detour time uses the fixed 50 km/h
`averageSpeed`, independent of transport mode; the per-mode speed table
(walking 1.4, bicycling 4.2, transit 8.3, driving 13.9 m/s, defaulting to
driving) exists but only converts leg distances to durations. -/
theorem claim_C5_detour_formula (dist : Dist) (o d : Coordinates) (mems : List Memory)
    (maxD : ℚ) (w : MemoryWaypoint) :
    (w ∈ findPotentialMemoryWaypoints dist o d mems maxD →
        w.detourTime = (w.distanceFromRoute / 1000) / (averageSpeed / 60)) ∧
      averageSpeed = 50 ∧
      getBaseSpeedForMode ("walking") = 14/10 ∧
      getBaseSpeedForMode ("bicycling") = 42/10 ∧
      getBaseSpeedForMode ("transit") = 83/10 ∧
      getBaseSpeedForMode ("driving") = 139/10 ∧
      getBaseSpeedForMode ("hoverboard") = 139/10 :=
  ⟨fun h => (mem_findPotential h).2, rfl, rfl, rfl, rfl, rfl, rfl⟩

/-- The leg list built by the assembler's loop sums its per-leg distances into
the accumulated total. -/
theorem buildLegs_distance_sum (dist : Dist) (bs : ℚ) (p : Coordinates)
    (l : List MemoryWaypoint) :
    ((buildLegs dist bs p l).1.map (fun leg => leg.distance)).sum = (buildLegs dist bs p l).2.1 := by
  induction l generalizing p with
  | nil => simp [buildLegs]
  | cons w ws ih => simp [buildLegs, ih]

/-- The assembler's accumulated duration is the accumulated distance divided by
the mode speed (exact in ℚ). -/
theorem buildLegs_duration_eq (dist : Dist) (bs : ℚ) (p : Coordinates)
    (l : List MemoryWaypoint) :
    (buildLegs dist bs p l).2.2.1 = (buildLegs dist bs p l).2.1 / bs := by
  induction l generalizing p with
  | nil => simp [buildLegs]
  | cons w ws ih => simp [buildLegs, ih, add_div]

/-- Claim C8: for every assembled route, the total distance equals the sum of
the leg distances, and the total duration equals total distance divided by
the mode's speed (exactly, in rational arithmetic). -/
theorem claim_C8_route_totals (dist : Dist) (o d : Coordinates)
    (wps : List MemoryWaypoint) (mode : String) :
    (generateRouteWithWaypoints dist o d wps mode).distance =
        ((generateRouteWithWaypoints dist o d wps mode).legs.map (fun leg => leg.distance)).sum ∧
      (generateRouteWithWaypoints dist o d wps mode).duration =
        (generateRouteWithWaypoints dist o d wps mode).distance / getBaseSpeedForMode mode := by
  rw [generateRouteWithWaypoints]
  split
  · constructor <;> simp
  · constructor
    · simp [buildLegs_distance_sum]
    · simp [buildLegs_duration_eq, add_div]

/-- Claim C9: zero candidates yield zero waypoints, and assembling with an
empty selected-waypoint list succeeds, producing exactly one leg, no
waypoints, and the direct origin-to-destination distance. -/
theorem claim_C9_empty_waypoints (dist : Dist) (o d : Coordinates) (mode : String)
    (maxD : ℚ) :
    findPotentialMemoryWaypoints dist o d [] maxD = [] ∧
      sortWaypointsByPriority [] = [] ∧
      (generateRouteWithWaypoints dist o d [] mode).legs.length = 1 ∧
      (generateRouteWithWaypoints dist o d [] mode).memoryWaypoints = [] ∧
      (generateRouteWithWaypoints dist o d [] mode).distance = dist o d := by
  refine ⟨rfl, rfl, ?_, ?_, ?_⟩ <;> simp [generateRouteWithWaypoints]

end NavCore

namespace NavCore

/-- Inserting into the sorted-so-far list commutes with filtering one
equal-score class: the inserted element lands in front of its own class,
so equal-score elements keep their relative order (stability). -/
theorem filter_score_orderedInsert (s : ℚ) (a : MemoryWaypoint) (l : List MemoryWaypoint) :
    (List.orderedInsert scoreGe a l).filter (fun w => decide (scoreOf w = s)) =
      if scoreOf a = s then a :: l.filter (fun w => decide (scoreOf w = s))
      else l.filter (fun w => decide (scoreOf w = s)) := by
  induction l with
  | nil =>
    by_cases has : scoreOf a = s <;> simp [List.orderedInsert, has]
  | cons b t ih =>
    rw [List.orderedInsert]
    by_cases hab : scoreGe a b
    · rw [if_pos hab]
      by_cases has : scoreOf a = s <;> simp [List.filter_cons, has]
    · rw [if_neg hab]
      by_cases has : scoreOf a = s
      · have hbs : ¬scoreOf b = s := by
          intro hb
          exact hab (by rw [scoreGe, hb, has])
        simp [List.filter_cons, hbs, ih, has]
      · simp [List.filter_cons, ih, has]

/-- The stable sort preserves each equal-score class of the input in order. -/
theorem filter_score_insertionSort (s : ℚ) : ∀ l : List MemoryWaypoint,
    (List.insertionSort scoreGe l).filter (fun w => decide (scoreOf w = s)) =
      l.filter (fun w => decide (scoreOf w = s))
  | [] => rfl
  | a :: l => by
    rw [List.insertionSort, filter_score_orderedInsert, filter_score_insertionSort s l]
    by_cases has : scoreOf a = s <;> simp [List.filter_cons, has]

/-- Claim C6 (amended): the selector's sort is descending by
`score = importance·10 − detourTime·5`, is a permutation of its input, and —
being the stable JS sort — keeps every equal-score class in input order
(rather than breaking ties by candidate id); it is a pure function of its
input, hence deterministic. -/
theorem claim_C6_sort (l : List MemoryWaypoint) (s : ℚ) :
    List.Sorted scoreGe (sortWaypointsByPriority l) ∧
      (sortWaypointsByPriority l).Perm l ∧
      (sortWaypointsByPriority l).filter (fun w => decide (scoreOf w = s)) =
        l.filter (fun w => decide (scoreOf w = s)) :=
  ⟨List.sorted_insertionSort scoreGe l, List.perm_insertionSort scoreGe l,
    filter_score_insertionSort s l⟩

/-- Claim C6 counterexample: three equal-score waypoints entering in id order
b, a, c leave the sort in that same order, which is neither ascending nor
descending id order — ties are not broken by candidate id. -/
theorem claim_C6_cex :
    (sortWaypointsByPriority [cexWb, cexWa, cexWc]).map (fun w => w.memory.id) =
        ["b", "a", "c"] ∧
      scoreOf cexWb = scoreOf cexWa ∧ scoreOf cexWa = scoreOf cexWc ∧
      (["b", "a", "c"] : List String) ≠ ["a", "b", "c"] ∧
      (["b", "a", "c"] : List String) ≠ ["c", "a", "b"] := by
  refine ⟨?_, rfl, rfl, by decide, by decide⟩
  norm_num [sortWaypointsByPriority, List.insertionSort, List.orderedInsert,
    scoreGe, scoreOf, cexWb, cexWa, cexWc]

/-- Claim C7 (amended): the greedy sequencer returns a list of the same
length, the same multiset of waypoints up to reindexing, and — for inputs of
at least two waypoints — sequence indices exactly `0..N-1` in visiting
order; it is a pure function of its input, hence deterministic.  (For a
singleton input the source returns it unchanged, keeping its original
index.) -/
theorem claim_C7_sequencer (dist : Dist) (start en : Coordinates) (l : List MemoryWaypoint) :
    (orderWaypointsByGreedyPath dist start en l).length = l.length ∧
      ((orderWaypointsByGreedyPath dist start en l).map stripIdx).Perm (l.map stripIdx) ∧
      (2 ≤ l.length →
        (orderWaypointsByGreedyPath dist start en l).map (fun w => w.waypointIndex) =
          List.range l.length) := by
  rcases le_or_lt l.length 1 with hle | hlt
  · rw [orderWaypointsByGreedyPath, if_pos hle]
    exact ⟨rfl, List.Perm.refl _, fun h2 => absurd (le_trans h2 hle) (by omega)⟩
  · rw [orderWaypointsByGreedyPath, if_neg (by omega)]
    have hperm := greedyGo_perm dist l.length start l le_rfl
    refine ⟨?_, ?_, fun _ => ?_⟩
    · rw [assignIdx_length]
      exact hperm.length_eq
    · rw [map_stripIdx_assignIdx]
      exact hperm.map stripIdx
    · rw [map_waypointIndex_assignIdx, hperm.length_eq]
      exact (List.range_eq_range' l.length).symm

/-- Witness for C7 at a two-waypoint input: indices come out as `[0, 1]`. -/
theorem claim_C7_witness :
    2 ≤ ([demoWa, demoWb] : List MemoryWaypoint).length ∧
      (orderWaypointsByGreedyPath demoDist ⟨0, 0⟩ ⟨0, 30⟩ [demoWa, demoWb]).map
          (fun w => w.waypointIndex) =
        List.range ([demoWa, demoWb] : List MemoryWaypoint).length :=
  ⟨by decide, (claim_C7_sequencer demoDist ⟨0, 0⟩ ⟨0, 30⟩ [demoWa, demoWb]).2.2 (by decide)⟩

/-- Claim C7 counterexample: a singleton selected list whose waypoint carries
its original memory-list index 1 is returned unchanged, so the output
indices are `[1]`, not the permutation `[0]` of `0..N-1`. -/
theorem claim_C7_cex :
    (orderWaypointsByGreedyPath demoDist ⟨0, 0⟩ ⟨10, 10⟩ [cexSingleton]).map
        (fun w => w.waypointIndex) = [1] ∧
      ([1] : List ℕ) ≠ List.range ([cexSingleton] : List MemoryWaypoint).length := by
  exact ⟨rfl, by decide⟩

end NavCore

namespace NavCore

/-- Claim C10: with `activeNavigation` false, both the location update and the
step advance return without error (they are total state-to-state functions
in the source, with no throw on this path) and leave every field of the
state unchanged. -/
theorem claim_C10_inactive_noop (dist : Dist) (s : NavigationState) (loc : Coordinates)
    (h : s.activeNavigation = false) :
    updateCurrentLocation dist s loc = s ∧ navigateToNextStep s = s := by
  constructor
  · cases hr : s.currentRoute <;> simp [updateCurrentLocation, h, hr]
  · cases hr : s.currentRoute <;> simp [navigateToNextStep, h, hr]

/-- Witness for C10 at the idle default state. -/
theorem claim_C10_witness :
    defaultNavigationState.activeNavigation = false ∧
      (updateCurrentLocation demoDist defaultNavigationState ⟨1, 2⟩ = defaultNavigationState ∧
        navigateToNextStep defaultNavigationState = defaultNavigationState) :=
  ⟨rfl, claim_C10_inactive_noop demoDist defaultNavigationState ⟨1, 2⟩ rfl⟩

/-- Claim C2 (amended): operations invoked outside their nominal source state
do not fail — there is no `InvalidSessionState` condition in the code.
`navigateToNextStep` and `updateCurrentLocation` silently return the state
unchanged when navigation is inactive, and `stopNavigation` always applies
its reset without any error. -/
theorem claim_C2_silent (dist : Dist) (s : NavigationState) (loc : Coordinates)
    (h : s.activeNavigation = false) :
    navigateToNextStep s = s ∧ updateCurrentLocation dist s loc = s ∧
      (stopNavigation s).activeNavigation = false ∧
      (stopNavigation s).travelledDistance = 0 := by
  refine ⟨?_, ?_, rfl, rfl⟩
  · cases hr : s.currentRoute <;> simp [navigateToNextStep, h, hr]
  · cases hr : s.currentRoute <;> simp [updateCurrentLocation, h, hr]

/-- Witness for the amended C2 at the idle default state. -/
theorem claim_C2_witness :
    defaultNavigationState.activeNavigation = false ∧
      (navigateToNextStep defaultNavigationState = defaultNavigationState ∧
        updateCurrentLocation demoDist defaultNavigationState ⟨3, 4⟩ = defaultNavigationState ∧
        (stopNavigation defaultNavigationState).activeNavigation = false ∧
        (stopNavigation defaultNavigationState).travelledDistance = 0) :=
  ⟨rfl, claim_C2_silent demoDist defaultNavigationState ⟨3, 4⟩ rfl⟩

/-- Claim C2 counterexample: called in the Idle default state, `stop` and the
step advance return the state entirely unchanged and raise nothing — the
claimed `InvalidSessionState` failure does not happen (both operations are
throw-free total functions). -/
theorem claim_C2_cex :
    stopNavigation defaultNavigationState = defaultNavigationState ∧
      navigateToNextStep defaultNavigationState = defaultNavigationState :=
  ⟨rfl, rfl⟩

/-- Claim C3 (amended): for every active session with a route and both
endpoints, `recalculateRoute` succeeds, re-running selection, sequencing and
assembly from the session's *stored* origin (the freshly read location is
never used) and restarting navigation — with `travelledDistance` reset to 0
rather than carried forward, and the stored origin left in place. -/
theorem claim_C3_recalc (dist : Dist) (shuffle : ℕ → List MemoryWaypoint → List MemoryWaypoint)
    (mems : List Memory) (maxD : ℚ) (mode : String) (now : ℚ) (s : NavigationState)
    (r : Route) (o dst : Coordinates)
    (hact : s.activeNavigation = true) (hroute : s.currentRoute = some r)
    (ho : s.origin = some o) (hd : s.destination = some dst) :
    ∃ s2, recalculateRoute dist shuffle mems maxD mode now s = Except.ok s2 ∧
      s2.travelledDistance = 0 ∧ s2.activeNavigation = true ∧ s2.currentStepIndex = 0 ∧
      s2.origin = some o ∧ s2.destination = some dst := by
  have heq : recalculateRoute dist shuffle mems maxD mode now s =
      Except.ok (startNavUpdate now r
        { s with
          currentRoute := some (generateRouteWithWaypoints dist o dst
            ((sortWaypointsByPriority
              (findPotentialMemoryWaypoints dist o dst mems maxD)).take 5) mode)
          alternativeRoutes := generateAlternativeRoutes dist o dst
            (sortWaypointsByPriority
              (findPotentialMemoryWaypoints dist o dst mems maxD)) mode 2 shuffle }) := by
    simp [recalculateRoute, calculateRoutes, hact, hroute, ho, hd]
  exact ⟨_, heq, rfl, rfl, rfl, ho, hd⟩

/-- Witness for the amended C3 at a concrete active session. -/
theorem claim_C3_witness :
    demoActive.activeNavigation = true ∧
      (∃ s2, recalculateRoute demoDist (fun _ l => l) [] 10 ("driving") 0 demoActive =
          Except.ok s2 ∧ s2.travelledDistance = 0 ∧ s2.activeNavigation = true ∧
          s2.currentStepIndex = 0 ∧ s2.origin = some ⟨0, 0⟩ ∧
          s2.destination = some ⟨100, 0⟩) :=
  ⟨rfl, claim_C3_recalc demoDist (fun _ l => l) [] 10 ("driving") 0 demoActive demoRoute1
    ⟨0, 0⟩ ⟨100, 0⟩ rfl rfl rfl rfl⟩

/-- Claim C3 counterexample: a session that has travelled 100 recalculates and
comes back with `travelledDistance` 0 — accumulated progress is discarded,
not carried forward. -/
theorem claim_C3_cex :
    demoActive100.travelledDistance = 100 ∧
      (recalculateRoute demoDist (fun _ l => l) [] 10 ("driving") 0
          demoActive100).toOption.map (fun s2 => s2.travelledDistance) = some 0 :=
  ⟨rfl, rfl⟩

/-- Claim C1: on the final step of the active route, a location update at that
step's end (distance 0, inside the 20 m arrival threshold) leaves the
session active with `currentStepIndex` equal to the total step count — an
out-of-range index — instead of completing navigation; the sibling
`navigateToNextStep` does stop navigation at the same boundary, which the
location-update path omits. -/
theorem claim_C1_final_step_stays_active :
    (updateCurrentLocation demoDist demoActive ⟨100, 0⟩).activeNavigation = true ∧
      (updateCurrentLocation demoDist demoActive ⟨100, 0⟩).currentStepIndex =
        totalSteps demoRoute1 ∧
      totalSteps demoRoute1 = 1 ∧
      (navigateToNextStep demoActive).activeNavigation = false := by
  refine ⟨?_, ?_, rfl, rfl⟩ <;>
    norm_num [updateCurrentLocation, findCurrentStep, findStepPos, demoDist, demoActive,
      demoRoute1, totalSteps, defaultStep, defaultLeg]

end NavCore

namespace NavCore

/-- Witness for C4: a concrete candidate passes the filter and its recorded
detour time respects the 10-minute budget. -/
theorem claim_C4_witness :
    demoW1 ∈ findPotentialMemoryWaypoints demoDist ⟨0, 0⟩ ⟨100, 0⟩ [demoMem1] 10 ∧
      demoW1.detourTime ≤ 10 := by
  have hm : demoW1 ∈ findPotentialMemoryWaypoints demoDist ⟨0, 0⟩ ⟨100, 0⟩ [demoMem1] 10 := by
    simp only [findPotentialMemoryWaypoints, demoDist, demoMem1, demoW1, averageSpeed,
      List.enum, List.enumFrom, List.filterMap_cons, List.filterMap_nil]
    norm_num
  exact ⟨hm,
    (claim_C4_detour_budget demoDist ⟨0, 0⟩ ⟨100, 0⟩ [demoMem1] 10 ("driving") 5 demoW1).1 hm⟩

/-- Witness for the amended C5: the same concrete candidate's stored detour
time is its extra distance through the fixed 50 km/h conversion. -/
theorem claim_C5_witness :
    demoW1 ∈ findPotentialMemoryWaypoints demoDist ⟨0, 0⟩ ⟨100, 0⟩ [demoMem1] 10 ∧
      demoW1.detourTime = (demoW1.distanceFromRoute / 1000) / (averageSpeed / 60) := by
  have hm : demoW1 ∈ findPotentialMemoryWaypoints demoDist ⟨0, 0⟩ ⟨100, 0⟩ [demoMem1] 10 := by
    simp only [findPotentialMemoryWaypoints, demoDist, demoMem1, demoW1, averageSpeed,
      List.enum, List.enumFrom, List.filterMap_cons, List.filterMap_nil]
    norm_num
  exact ⟨hm, (claim_C5_detour_formula demoDist ⟨0, 0⟩ ⟨100, 0⟩ [demoMem1] 10 demoW1).1 hm⟩

/-- Claim C5 counterexample: a candidate with detour distance 1000 m gets
stored detour time 6/5 minutes (the fixed 50 km/h estimate), while the
spec's `detourDistance / speed(mode) / 60` gives 250/21 minutes for walking
— the selector's detour time is not the spec's mode-dependent formula (the
filter does not even take the transport mode as an input). -/
theorem claim_C5_cex :
    (findPotentialMemoryWaypoints demoDist ⟨0, 0⟩ ⟨1000, 0⟩ [cexMem5] 60).map
        (fun w => w.detourTime) = [6/5] ∧
      (findPotentialMemoryWaypoints demoDist ⟨0, 0⟩ ⟨1000, 0⟩ [cexMem5] 60).map
        (fun w => w.distanceFromRoute) = [1000] ∧
      specDetourTime ("walking") 1000 = 250/21 ∧
      (6/5 : ℚ) ≠ 250/21 := by
  have hs : getBaseSpeedForMode ("walking") = 14/10 := rfl
  refine ⟨?_, ?_, ?_, by norm_num⟩
  · simp only [findPotentialMemoryWaypoints, demoDist, cexMem5, averageSpeed, List.enum,
      List.enumFrom, List.filterMap_cons, List.filterMap_nil]
    norm_num
  · simp only [findPotentialMemoryWaypoints, demoDist, cexMem5, averageSpeed, List.enum,
      List.enumFrom, List.filterMap_cons, List.filterMap_nil]
    norm_num
  · rw [specDetourTime, hs]
    norm_num

end NavCore
